import Mathlib

/-!
# Verification of the piano-sheets-db catalog service and collector

A shallow embedding of the two Python modules of the repository:

* `src/app.py`   — the Flask catalog/favorites API (model: `PianoApi` namespace);
* `src/scraper.py` — the headless-browser collector (model: `PianoScraper` namespace).

Pure request/response handlers become pure Lean functions over an explicit
catalog (`List ApiSong`); the favorites mutations become explicit state
transitions on a `FavStore`; the collector's page traversal becomes a
recursion over the sequence of listing-page fetch results, where a fetch
that raises an exception is modelled as `none`.
-/

namespace StrLib

/-- Python's `str.lower`, character by character. -/
def lowerStr (s : String) : String :=
  String.mk (s.toList.map Char.toLower)

/-- Whitespace as recognised by Python's `str.strip`. -/
def isWs (c : Char) : Bool := c.isWhitespace

/-- Python's `str.strip` on a character list: drop whitespace at both ends. -/
def trimList (l : List Char) : List Char :=
  ((l.dropWhile isWs).reverse.dropWhile isWs).reverse

/-- Python's `str.strip`. -/
def trimStr (s : String) : String := String.mk (trimList s.toList)

/-- Whether the first list occurs at the head of the second. -/
def leadMatch : List Char → List Char → Bool
  | [], _ => true
  | _ :: _, [] => false
  | a :: as, b :: bs => a = b && leadMatch as bs

/-- Whether `pat` occurs anywhere in `l` (Python's `pat in l`; the empty
pattern always occurs). -/
def hasSub : List Char → List Char → Bool
  | l, pat =>
    if leadMatch pat l then true
    else match l with
      | [] => false
      | _ :: rest => hasSub rest pat

/-- Python's `needle in haystack` substring test. -/
def strContains (haystack needle : String) : Bool :=
  hasSub haystack.toList needle.toList

/-- Python's `s.endswith(suffix)`. -/
def endsStr (s suffix : String) : Bool :=
  leadMatch suffix.toList.reverse s.toList.reverse

/-- Python's `str.split(sep)` for a one-character separator: always at
least one (possibly empty) segment. -/
def splitChar (sep : Char) : List Char → List (List Char)
  | [] => [[]]
  | c :: cs =>
    match splitChar sep cs with
    | [] => [[]]
    | seg :: segs => if c = sep then [] :: seg :: segs else (c :: seg) :: segs

/-- Python's `s.split('/')[-1]`: the final path segment of a URL
(`"".split('/')[-1] = ""`). -/
def lastSegment (s : String) : String :=
  String.mk ((splitChar '/' s.toList).getLastD [])

/-- Truncate a character list at the first occurrence of `pat` (identity
when `pat` does not occur). -/
def cutAt (pat : List Char) : List Char → List Char
  | [] => []
  | c :: cs => if leadMatch pat (c :: cs) then [] else c :: cutAt pat cs

end StrLib

open StrLib

namespace PianoApi

/-- One catalog entry as deserialized from `sheets/piano_sheets.json`.
Fields read with `dict.get(key, default)` in `app.py` are `Option`s here
(`none` models an absent key); `categories` and `sheets` default to `[]`
in every access, so they are plain lists. -/
structure ApiSong where
  title : Option String
  artist : Option String
  url : Option String
  difficulty : Option String
  thumbnail : Option String
  categories : List String
  sheets : List String
  scraped_at : Option String
deriving DecidableEq, Repr

/-- The lightweight projection built by `get_songs` (app.py:121-129). -/
structure ProjectedSong where
  title : Option String
  artist : String
  url : Option String
  difficulty : String
  thumbnail : Option String
  id : String
  categories : List String
deriving DecidableEq, Repr

/-- `GET /api/songs` (app.py:112-134): the simplified list. The `id` is
`s.get('url','').split('/')[-1]`. -/
def get_songs (songs : List ApiSong) : List ProjectedSong :=
  songs.map fun s =>
    { title := s.title
      artist := s.artist.getD "Unknown"
      url := s.url
      difficulty := s.difficulty.getD "Normal"
      thumbnail := s.thumbnail
      id := lastSegment (s.url.getD "")
      categories := s.categories }

/-- `GET /api/songs/full` (app.py:136-147): every record unchanged. -/
def get_songs_full (songs : List ApiSong) : List ApiSong :=
  songs

/-- The match test of `get_song` (app.py:158-161): `song_id in url or
url.endswith('/' + song_id)`, with `url = song.get('url','')`. -/
def songMatchesId (song_id : String) (s : ApiSong) : Bool :=
  let url := s.url.getD ""
  strContains url song_id || endsStr url ("/" ++ song_id)

/-- `GET /api/song/<id>` (app.py:149-163): HTTP status together with the
first matching record in catalog order; `404` with no body when none. -/
def get_song (song_id : String) (songs : List ApiSong) : Nat × Option ApiSong :=
  match songs.find? (songMatchesId song_id) with
  | some s => (200, some s)
  | none => (404, none)

/-- Outcome of `GET /api/search` (app.py:165-191). -/
inductive SearchResult where
  | badRequest (error : String)
  | ok (query : String) (count : Nat) (results : List ApiSong)
deriving DecidableEq, Repr

/-- `GET /api/search?q=` (app.py:165-191): the query is lowercased then
stripped; if the result is empty the handler returns 400, otherwise it
filters on substring containment in lowercased title or artist (both
defaulting to the empty string). -/
def search_songs (q : String) (songs : List ApiSong) : SearchResult :=
  let query := trimStr (lowerStr q)
  if query = "" then
    .badRequest "Query parameter q is required"
  else
    let results := songs.filter fun s =>
      strContains (lowerStr (s.title.getD "")) query ||
      strContains (lowerStr (s.artist.getD "")) query
    .ok query results.length results

/-- `GET /api/category/<name>` response (app.py:227-231); the handler
always answers 200. -/
structure CategoryResponse where
  status : Nat
  category : String
  count : Nat
  songs : List ApiSong
deriving DecidableEq, Repr

/-- `GET /api/category/<name>` (app.py:212-231): case-insensitive exact
tag match; an unmatched category yields `200` with an empty list. -/
def get_songs_by_category (category_name : String) (songs : List ApiSong) :
    CategoryResponse :=
  let filtered := songs.filter fun s =>
    (s.categories.map lowerStr).contains (lowerStr category_name)
  ⟨200, category_name, filtered.length, filtered⟩

/-- The artist value used by `get_stats` (app.py:252): `song.get('artist', 'Unknown')`. -/
def artistOf (s : ApiSong) : String :=
  s.artist.getD "Unknown"

/-- The filter of `get_stats` (app.py:253): `if artist and artist != 'Unknown Artist'`.
Python string truthiness is non-emptiness. -/
def statsArtistKept (a : String) : Bool :=
  a ≠ "" && a ≠ "Unknown Artist"

/-- One step of the difficulty histogram (app.py:257-258):
`difficulties[d] = difficulties.get(d, 0) + 1` on an insertion-ordered dict. -/
def bumpDifficulty (m : List (String × Nat)) (d : String) : List (String × Nat) :=
  if m.any (fun e => e.1 = d) then
    m.map fun e => if e.1 = d then (e.1, e.2 + 1) else e
  else
    m ++ [(d, 1)]

/-- The response body of `GET /api/stats` (app.py:272-282), minus the two
configuration echoes. -/
structure Stats where
  total_songs : Nat
  total_artists : Nat
  total_categories : Nat
  total_sheets : Nat
  total_favorites : Nat
  difficulties : List (String × Nat)
  last_updated : Option String
deriving DecidableEq, Repr

/-- Accumulator of the statistics loop (app.py:250-265). -/
structure StatsAcc where
  artists : Finset String
  difficulties : List (String × Nat)
  categories : Finset String
  total_sheets : Nat

/-- One iteration of the loop of `get_stats` over a song (app.py:250-265). -/
def statsStep (acc : StatsAcc) (s : ApiSong) : StatsAcc :=
  let artist := artistOf s
  { artists := if statsArtistKept artist then insert artist acc.artists else acc.artists
    difficulties := bumpDifficulty acc.difficulties (s.difficulty.getD "Unknown")
    categories := s.categories.foldl (fun c cat => insert cat c) acc.categories
    total_sheets := acc.total_sheets + s.sheets.length }

/-- `GET /api/stats` (app.py:233-282). -/
def get_stats (songs : List ApiSong) (favorites : List String) : Stats :=
  let acc := songs.foldl statsStep ⟨∅, [], ∅, 0⟩
  { total_songs := songs.length
    total_artists := acc.artists.card
    total_categories := acc.categories.card
    total_sheets := acc.total_sheets
    total_favorites := favorites.length
    difficulties := acc.difficulties
    last_updated := songs.getLast? >>= fun s => s.scraped_at }

/-- The remote state of the favorites artifact `data.js`: the id list it
encodes, the rendered text (including the timestamp header), and the
store's version token (the file's content hash, abstracted as a counter
that changes on every committed write). -/
structure FavStore where
  favorites : List String
  content : String
  sha : Nat
deriving DecidableEq, Repr

/-- The text generated for `data.js` (app.py:65-72): header comment with a
UTC timestamp, then the exported id list. -/
def renderFavorites (favorites : List String) (timestamp : String) : String :=
  "// Auto-generated favorites list\n// Updated: " ++ timestamp ++ " UTC\n\n" ++
    "export const favorites = [\n  " ++
    String.intercalate ",\n  " (favorites.map fun fav => "\"" ++ fav ++ "\"") ++
    "\n];\n"

/-- `update_favorites` (app.py:55-85): regenerates the artifact wholesale
and commits it against the current version token, producing a new token. -/
def update_favorites (store : FavStore) (favorites : List String)
    (timestamp : String) : FavStore :=
  { favorites := favorites
    content := renderFavorites favorites timestamp
    sha := store.sha + 1 }

/-- Response bodies of the two favorites mutations: the no-op branches
return only a message and the unchanged list (no `count` field), the
writing branches return message, count and list. -/
inductive FavResp where
  | noop (message : String) (favorites : List String)
  | updated (message : String) (count : Nat) (favorites : List String)
deriving DecidableEq, Repr

/-- `POST /api/favorites/add` (app.py:313-344), after request validation:
if the id is already present, answer `Already in favorites` with the
current list and perform no write; otherwise append and persist. -/
def add_favorite (store : FavStore) (song_id : String) (timestamp : String) :
    FavResp × FavStore :=
  if store.favorites.contains song_id then
    (.noop "Already in favorites" store.favorites, store)
  else
    let favorites := store.favorites ++ [song_id]
    (.updated "Added to favorites" favorites.length favorites,
      update_favorites store favorites timestamp)

/-- `POST /api/favorites/remove` (app.py:346-376), after request
validation: if present, remove the first occurrence and persist;
otherwise answer `Not in favorites` with the list unchanged and no write. -/
def remove_favorite (store : FavStore) (song_id : String) (timestamp : String) :
    FavResp × FavStore :=
  if store.favorites.contains song_id then
    let favorites := store.favorites.erase song_id
    (.updated "Removed from favorites" favorites.length favorites,
      update_favorites store favorites timestamp)
  else
    (.noop "Not in favorites" store.favorites, store)

end PianoApi

namespace PianoScraper

/-- One anchor element found by the listing selector `a[href*="/sheets/"]`
(scraper.py:68).  `href` is `none` when `get_attribute` yields nothing;
`titleText`/`artistText` are `none` when the nested `h3, .title` /
`p, .artist` lookup raises (scraper.py:89-97). -/
structure Link where
  href : Option String
  titleText : Option String
  artistText : Option String
deriving DecidableEq, Repr

/-- One listing page as the browser observes it: the discovered links and
whether an `a[rel="next"]` element is present (scraper.py:117-121). -/
structure ListingPage where
  links : List Link
  hasNext : Bool
deriving DecidableEq, Repr

/-- A candidate record assembled during enumeration (scraper.py:99-104). -/
structure Candidate where
  id : String
  url : String
  title : String
  artist : String
deriving DecidableEq, Repr

/-- Processing of one discovered link (scraper.py:74-112): drop it when the
href is missing/empty or contains `category` or `page`; drop it when its
derived id is in the existing-catalog set; drop it when a candidate with
the same id was already collected this run; otherwise append a candidate
built from best-effort title/artist extraction (fallback `"Unknown"`). -/
def addLink (existing : List String) (acc : List Candidate) (link : Link) :
    List Candidate :=
  let href := link.href.getD ""
  if href = "" || strContains href "category" || strContains href "page" then
    acc
  else
    let song_id := lastSegment href
    if song_id ∈ existing then
      acc
    else
      let title := (link.titleText.map trimStr).getD "Unknown"
      let artist := (link.artistText.map trimStr).getD "Unknown"
      if acc.any (fun s => s.id = song_id) then
        acc
      else
        acc ++ [⟨song_id, href, title, artist⟩]

/-- The pagination loop of `get_all_song_links` (scraper.py:60-125) over
the sequence of page-fetch outcomes (`none` = the fetch raised).  A raised
fetch is caught by the `except` clause and breaks the loop (scraper.py:123-125);
a page with no links breaks (scraper.py:70-71); a missing next button
breaks (scraper.py:117-121). -/
def getAllSongLinksAux (existing : List String) :
    List (Option ListingPage) → List Candidate → List Candidate
  | [], acc => acc
  | none :: _, acc => acc
  | some p :: rest, acc =>
    if p.links.isEmpty then
      acc
    else
      let acc := p.links.foldl (addLink existing) acc
      if p.hasNext then getAllSongLinksAux existing rest acc else acc

/-- `get_all_song_links` (scraper.py:54-128): the list of new candidates. -/
def get_all_song_links (existing : List String)
    (pages : List (Option ListingPage)) : List Candidate :=
  getAllSongLinksAux existing pages []

/-- A song detail page at extraction time (after the difficulty click):
the texts of the buttons on the page, and for each CSS selector the texts
of the elements it matches, as an association list (missing selector =
no elements). -/
structure DetailPage where
  buttons : List String
  sels : List (String × List String)

/-- `driver.find_elements(By.CSS_SELECTOR, sel)` on a detail page,
returning element texts. -/
def findElements (p : DetailPage) (sel : String) : List String :=
  ((p.sels.find? (fun e => e.1 = sel)).map (fun e => e.2)).getD []

/-- `click_hard_button` (scraper.py:130-151): whether a button whose text
case-insensitively contains `hard` exists (and is clicked). -/
def click_hard_button (p : DetailPage) : Bool :=
  p.buttons.any fun b => strContains (lowerStr b) "hard"

/-- Truncate `s` at the first occurrence of `pat`:
`re.sub(pat + '.*$', '', s, flags=re.MULTILINE | re.DOTALL)` — with
`DOTALL` the greedy `.*$` removes everything from the first match on. -/
def cutAll (pat : String) (s : String) : String :=
  String.mk (cutAt pat.toList s.toList)

/-- On each line, truncate at the first occurrence of `pat`:
`re.sub(pat + '.*$', '', s, flags=re.MULTILINE)` — without `DOTALL` the
removal stops at the line end, and `re.sub` rewrites every line. -/
def cutLines (pat : String) (s : String) : String :=
  String.mk (List.intercalate ['\n'] ((splitChar '\n' s.toList).map (cutAt pat.toList)))

/-- `clean_notes` (scraper.py:188-210): strip boilerplate sections, drop
blank lines, trim each line, and re-check plausibility (both bracket
delimiters present and length above 20); `none` when the check fails. -/
def clean_notes (text : String) : Option String :=
  let t := cutAll "TRANS" text
  let t := cutLines "Speed:" t
  let t := cutLines "Auto Play" t
  let t := cutAll "How to Play" t
  let t := cutLines "Sustain" t
  let t := cutLines "Reset" t
  let t := String.mk (List.intercalate ['\n']
    (((splitChar '\n' t.toList).map trimList).filter (fun l => l ≠ [])))
  if t.toList.contains '[' && t.toList.contains ']' && t.length > 20 then some t else none

/-- The raw plausibility check of `extract_notes` (scraper.py:173): both
bracket delimiters present and more than 50 characters. -/
def plausibleRaw (t : String) : Bool :=
  t.toList.contains '[' && t.toList.contains ']' && t.length > 50

/-- The inner element loop of `extract_notes` (scraper.py:169-177): return
the cleaned text of the first element whose raw text is plausible and
whose cleanup succeeds; keep scanning otherwise. -/
def extractFromTexts : List String → Option String
  | [] => none
  | t :: ts =>
    if plausibleRaw t then
      match clean_notes t with
      | some notes => some notes
      | none => extractFromTexts ts
    else
      extractFromTexts ts

/-- The ordered selector list of `extract_notes` (scraper.py:157-163). -/
def SELECTORS : List String :=
  ["div.space-y-4", "div[class*=\"space-y\"]", "pre", "code", ".sheet-content"]

/-- The outer selector loop of `extract_notes` (scraper.py:165-180). -/
def extractNotesAux (p : DetailPage) : List String → Option String
  | [] => none
  | sel :: rest =>
    match extractFromTexts (findElements p sel) with
    | some notes => some notes
    | none => extractNotesAux p rest

/-- `extract_notes` (scraper.py:153-186). -/
def extract_notes (p : DetailPage) : Option String :=
  extractNotesAux p SELECTORS

/-- The record written for one successfully scraped song (scraper.py:232-240). -/
structure SongData where
  id : String
  title : String
  artist : String
  url : String
  difficulty : String
  notes : String
  updated_at : String
deriving DecidableEq, Repr

/-- `scrape_song` (scraper.py:212-254): navigate to the candidate's URL
(`none` page = navigation raised, caught at scraper.py:252-254), click the
difficulty button, extract notes; on extraction failure return nothing
(no record written); otherwise build the record.  `now` is the
environment clock read at scraper.py:239. -/
def scrape_song (now : String) (c : Candidate) (page : Option DetailPage) :
    Option SongData :=
  match page with
  | none => none
  | some p =>
    let _ := click_hard_button p
    match extract_notes p with
    | none => none
    | some notes =>
      some ⟨c.id, c.title, c.artist, c.url, "hard", notes, now⟩

/-- Characters kept by `re.sub(r'[^\w\s-]', '', s)` (scraper.py:260,265):
word characters (alphanumeric or underscore), whitespace, and hyphens. -/
def pyKeepChar (c : Char) : Bool :=
  c.isAlphanum || c = '_' || c.isWhitespace || c = '-'

/-- `re.sub(r'[^\w\s-]', '', s).strip().replace(' ', '_')`
(scraper.py:260-261, 265-266): drop the excluded characters, trim, and
replace every space character with an underscore. -/
def safeName (s : String) : String :=
  String.mk ((trimList (s.toList.filter pyKeepChar)).map
    fun c => if c = ' ' then '_' else c)

/-- The path computed by `save_song` (scraper.py:256-275): the directory
`sheets/<safe artist>` (placeholder `Unknown` when empty) and the file
name `<safe title>.json` (the item id when empty). -/
def save_path (artist title id : String) : String × String :=
  let safe_artist := safeName artist
  let safe_artist := if safe_artist = "" then "Unknown" else safe_artist
  let safe_title := safeName title
  let safe_title := if safe_title = "" then id else safe_title
  ("sheets/" ++ safe_artist, safe_title ++ ".json")

/-- The run summary accumulated by `run` (scraper.py:303-315), together
with the records written along the way. -/
structure RunSummary where
  successful : Nat
  failed : Nat
  records : List SongData
deriving DecidableEq, Repr

/-- One iteration of the scraping loop of `run` (scraper.py:306-315). -/
def runStep (now : String) (detail : String → Option DetailPage)
    (acc : RunSummary) (c : Candidate) : RunSummary :=
  match scrape_song now c (detail c.url) with
  | some r =>
    { successful := acc.successful + 1, failed := acc.failed
      records := acc.records ++ [r] }
  | none =>
    { successful := acc.successful, failed := acc.failed + 1
      records := acc.records }

/-- The scraping loop of `run` (scraper.py:306-315). -/
def runScrapesAux (now : String) (detail : String → Option DetailPage) :
    List Candidate → RunSummary → RunSummary
  | [], acc => acc
  | c :: cs, acc => runScrapesAux now detail cs (runStep now detail acc c)

/-- `run` (scraper.py:286-331).  `detail` maps a song URL to the outcome
of navigating to it (`none` = the navigation raised).  An uncaught
exception in the body would hit the fatal handler (scraper.py:326-328) and
re-raise, modelled by the `Except.error` channel; every exception source
in the body is caught further down (page fetches at scraper.py:123-125,
per-item errors at scraper.py:252-254), so the loop runs to completion. -/
def run (existing : List String) (pages : List (Option ListingPage))
    (detail : String → Option DetailPage) (now : String) :
    Except String RunSummary :=
  let songs := get_all_song_links existing pages
  if songs.isEmpty then
    .ok ⟨0, 0, []⟩
  else
    .ok (runScrapesAux now detail songs ⟨0, 0, []⟩)

/-- The records persisted by a run. -/
def run_records (existing : List String) (pages : List (Option ListingPage))
    (detail : String → Option DetailPage) (now : String) : List SongData :=
  match run existing pages detail now with
  | .ok s => s.records
  | .error _ => []

/-- The detail-page URLs a run navigates to: `scrape_song` opens
`song['url']` (scraper.py:218) for exactly the enumerated candidates
(scraper.py:306-309). -/
def detail_visits (existing : List String)
    (pages : List (Option ListingPage)) : List String :=
  (get_all_song_links existing pages).map Candidate.url

end PianoScraper

namespace SpecSide

open PianoApi PianoScraper

/-- Spec wording (claim C3): the hit predicate for a search query — the
(lowercased) query occurs as a substring of the lowercased title or the
lowercased artist. -/
def searchHit (query : String) (s : ApiSong) : Prop :=
  strContains (lowerStr (s.title.getD "")) query = true ∨
    strContains (lowerStr (s.artist.getD "")) query = true

instance (query : String) (s : ApiSong) : Decidable (searchHit query s) := by
  unfold searchHit; exact inferInstance

/-- Spec wording (claim C5): the number of distinct artist values over all
records excluding the sentinel `Unknown`, a record with no artist field
defaulting to `Unknown`. -/
def claimTotalArtists (songs : List ApiSong) : Nat :=
  ((songs.map artistOf).filter (fun a => a != "Unknown")).toFinset.card

/-- Amended count for claim C5: the values excluded by the code are the
empty string and `Unknown Artist`; the `Unknown` default itself counts. -/
def amendedTotalArtists (songs : List ApiSong) : Nat :=
  ((songs.map artistOf).filter statsArtistKept).toFinset.card

/-- All element texts a detail page offers, in selector order then element
order — the order in which `extract_notes` examines candidate blocks. -/
def orderedTexts (p : DetailPage) : List String :=
  (SELECTORS.map (findElements p)).flatten

/-- Spec wording (claim C7): a candidate block is accepted when its text
passes the plausibility heuristic and still passes it after cleanup. -/
def specAccepts (t : String) : Bool :=
  plausibleRaw t && (clean_notes t).isSome

/-- Spec wording (claim C7): extraction returns the cleaned text of the
first accepted candidate block, nothing when no block is accepted. -/
def specExtract (p : DetailPage) : Option String :=
  ((orderedTexts p).find? specAccepts).bind clean_notes

/-- Spec wording (claim C9, as frozen): strip non-alphanumeric characters
(keeping whitespace so that runs remain visible) and replace each
whitespace run with a single underscore. -/
def claimSanitize (s : String) : String :=
  String.mk (((s.toList.filter (fun c => c.isAlphanum || c.isWhitespace)).foldl
    (fun (acc : List Char × Bool) c =>
      if c.isWhitespace then
        (if acc.2 then acc else (acc.1 ++ ['_'], true))
      else
        (acc.1 ++ [c], false))
    ([], false)).1)

/-- Amended wording (claim C9): characters other than word characters
(letters, digits, underscore), hyphens, and whitespace are dropped. -/
def specKeep : List Char → List Char
  | [] => []
  | c :: cs =>
    if c.isAlphanum || c = '_' || c = '-' || c.isWhitespace then
      c :: specKeep cs
    else
      specKeep cs

/-- Amended wording (claim C9): each space character becomes one
underscore (other whitespace characters are kept as they are). -/
def specSpaces : List Char → List Char
  | [] => []
  | c :: cs => (if c = ' ' then '_' else c) :: specSpaces cs

/-- Amended wording (claim C9): sanitize = drop excluded characters, trim
surrounding whitespace, then turn spaces into underscores. -/
def specSanitize (s : String) : String :=
  String.mk (specSpaces (trimList (specKeep s.toList)))

/-- Amended wording (claim C9): directory `sheets/<sanitized artist>` with
placeholder `Unknown` when empty, file `<sanitized title>.json` falling
back to the item id when empty. -/
def specSavePath (artist title id : String) : String × String :=
  let a := specSanitize artist
  let t := specSanitize title
  ("sheets/" ++ (if a = "" then "Unknown" else a),
    (if t = "" then id else t) ++ ".json")

end SpecSide

namespace Samples

open PianoApi PianoScraper

/-- A sample catalog record: note the absent `artist` field. -/
def s0 : ApiSong :=
  ⟨some "Fur Elise", none, some "https://x/sheets/fur-elise", none, none,
    ["Classical"], [], some "2024"⟩

/-- The lightweight projection of `s0`. -/
def p0 : ProjectedSong :=
  ⟨some "Fur Elise", "Unknown", some "https://x/sheets/fur-elise", "Normal",
    none, "fur-elise", ["Classical"]⟩

/-- A favorites store holding one id. -/
def favStore1 : FavStore := ⟨["fur-elise"], "initial content", 7⟩

/-- An empty favorites store. -/
def favStore0 : FavStore := ⟨[], "initial content", 3⟩

/-- A listing link pointing at the already-catalogued `fur-elise` page. -/
def link0 : Link := ⟨some "https://x/sheets/fur-elise", some "Fur Elise", none⟩

/-- A single listing page carrying `link0` and no next button. -/
def pages0 : List (Option ListingPage) := [some ⟨[link0], false⟩]

/-- A detail-page oracle for which every navigation raises. -/
def noDetail : String → Option DetailPage := fun _ => none

/-- A detail page with no buttons and no matching elements. -/
def emptyPage : DetailPage := ⟨[], []⟩

/-- A candidate record. -/
def cand0 : Candidate :=
  ⟨"fur-elise", "https://x/sheets/fur-elise", "Fur Elise", "Beethoven"⟩

end Samples

open StrLib PianoApi PianoScraper SpecSide Samples

/-! ## Helper lemmas -/

lemma add_favorite_mem (store : FavStore) (song_id t : String) :
    song_id ∈ ((add_favorite store song_id t).2).favorites := by
  unfold add_favorite
  by_cases h : song_id ∈ store.favorites
  · simp [h]
  · simp [h, update_favorites]

lemma add_favorite_of_mem (store : FavStore) (song_id t : String)
    (h : song_id ∈ store.favorites) :
    add_favorite store song_id t = (.noop "Already in favorites" store.favorites, store) := by
  unfold add_favorite
  simp [h]

lemma remove_favorite_of_not_mem (store : FavStore) (song_id t : String)
    (h : song_id ∉ store.favorites) :
    remove_favorite store song_id t = (.noop "Not in favorites" store.favorites, store) := by
  unfold remove_favorite
  simp [h]

/-! ## Claim theorems -/

/-- **C2** — Favorites `add` is idempotent and `remove` of an absent id is
a no-op: a second `add` of the same id leaves the whole store exactly as
after the first and answers the distinct no-op status
`Already in favorites` with the current list; `remove` of an absent id
returns the store unchanged with the no-op status `Not in favorites`. -/
theorem favorites_add_idempotent_remove_noop (store : FavStore)
    (song_id t1 t2 : String) :
    (add_favorite (add_favorite store song_id t1).2 song_id t2).2
        = (add_favorite store song_id t1).2
    ∧ (add_favorite (add_favorite store song_id t1).2 song_id t2).1
        = .noop "Already in favorites" ((add_favorite store song_id t1).2).favorites
    ∧ (song_id ∉ store.favorites →
        remove_favorite store song_id t1
          = (.noop "Not in favorites" store.favorites, store)) := by
  have hmem := add_favorite_mem store song_id t1
  refine ⟨?_, ?_, fun h => remove_favorite_of_not_mem store song_id t1 h⟩
  · rw [add_favorite_of_mem _ _ _ hmem]
  · rw [add_favorite_of_mem _ _ _ hmem]

/-- Witness for C2 at a concrete store. -/
theorem favorites_add_idempotent_remove_noop_witness :
    (add_favorite (add_favorite favStore0 "fur-elise" "t1").2 "fur-elise" "t2").2
        = (add_favorite favStore0 "fur-elise" "t1").2
    ∧ ("fur-elise" : String) ∉ favStore0.favorites
    ∧ remove_favorite favStore0 "fur-elise" "t1"
        = (.noop "Not in favorites" favStore0.favorites, favStore0) :=
  ⟨(favorites_add_idempotent_remove_noop favStore0 "fur-elise" "t1" "t2").1,
   by decide,
   (favorites_add_idempotent_remove_noop favStore0 "fur-elise" "t1" "t2").2.2 (by decide)⟩

/-- **C10** — The no-op branches of the favorites mutations perform no
write at all: the returned store is the input store, so the persisted
artifact is not regenerated, its timestamp header is untouched, and its
version token is unchanged (hence no version conflict can arise). -/
theorem favorites_noop_no_write (store : FavStore) (idA idR t : String) :
    (idA ∈ store.favorites →
      add_favorite store idA t = (.noop "Already in favorites" store.favorites, store))
    ∧ (idR ∉ store.favorites →
      remove_favorite store idR t = (.noop "Not in favorites" store.favorites, store)) :=
  ⟨fun h => add_favorite_of_mem store idA t h,
   fun h => remove_favorite_of_not_mem store idR t h⟩

/-- Witness for C10 at a concrete store. -/
theorem favorites_noop_no_write_witness :
    ("fur-elise" : String) ∈ favStore1.favorites
    ∧ add_favorite favStore1 "fur-elise" "t"
        = (.noop "Already in favorites" favStore1.favorites, favStore1)
    ∧ ("other" : String) ∉ favStore1.favorites
    ∧ remove_favorite favStore1 "other" "t"
        = (.noop "Not in favorites" favStore1.favorites, favStore1) :=
  ⟨by decide,
   (favorites_noop_no_write favStore1 "fur-elise" "other" "t").1 (by decide),
   by decide,
   (favorites_noop_no_write favStore1 "fur-elise" "other" "t").2 (by decide)⟩

/-- **C8** — Projection consistency: the lightweight list has the same
length as the full list, and every projected entry whose `url` is present
has `id` equal to the final path segment of that `url`. -/
theorem projection_consistency (songs : List ApiSong) :
    (get_songs songs).length = (get_songs_full songs).length
    ∧ ∀ p ∈ get_songs songs, ∀ u, p.url = some u → p.id = lastSegment u := by
  constructor
  · simp [get_songs, get_songs_full]
  · intro p hp u hu
    simp only [get_songs, List.mem_map] at hp
    obtain ⟨s, _, rfl⟩ := hp
    have h2 : s.url = some u := hu
    show lastSegment (s.url.getD "") = lastSegment u
    rw [h2]
    rfl

/-- Witness for C8 at a concrete catalog. -/
theorem projection_consistency_witness :
    (get_songs [s0]).length = (get_songs_full [s0]).length
    ∧ p0 ∈ get_songs [s0]
    ∧ p0.url = some "https://x/sheets/fur-elise"
    ∧ p0.id = lastSegment "https://x/sheets/fur-elise" :=
  ⟨(projection_consistency [s0]).1, by decide, by decide,
   (projection_consistency [s0]).2 p0 (by decide) _ (by decide)⟩

/-- **C4** — Not-found asymmetry: a category matching no record yields a
`200` success with an empty song list, while an id matching no record's
URL yields a `404` with no body. -/
theorem notfound_asymmetry (songs : List ApiSong) (name song_id : String) :
    ((∀ s ∈ songs, ((s.categories.map lowerStr).contains (lowerStr name)) = false) →
      get_songs_by_category name songs = ⟨200, name, 0, []⟩)
    ∧ ((∀ s ∈ songs, songMatchesId song_id s = false) →
      get_song song_id songs = (404, none)) := by
  constructor
  · intro h
    unfold get_songs_by_category
    have hnil : songs.filter
        (fun s => (s.categories.map lowerStr).contains (lowerStr name)) = [] := by
      rw [List.filter_eq_nil_iff]
      intro a ha hc
      rw [h a ha] at hc
      exact Bool.false_ne_true hc
    rw [hnil]
    rfl
  · intro h
    unfold get_song
    have hnone : songs.find? (songMatchesId song_id) = none := by
      rw [List.find?_eq_none]
      intro a ha hc
      rw [h a ha] at hc
      exact Bool.false_ne_true hc
    rw [hnone]

/-- Witness for C4 at a concrete catalog. -/
theorem notfound_asymmetry_witness :
    get_songs_by_category "nope" [s0] = ⟨200, "nope", 0, []⟩
    ∧ get_song "nope" [s0] = (404, none) :=
  ⟨(notfound_asymmetry [s0] "nope" "nope").1 (by decide),
   (notfound_asymmetry [s0] "nope" "nope").2 (by decide)⟩

/-- **C3, counterexample** — the claim says every non-empty query yields
the substring-filtered result set, but the handler strips the query before
the emptiness check: the non-empty query `" "` yields a 400 client error
instead of a result set (here the empty catalog, where the claim predicts
the empty success result). -/
theorem search_contract_counterexample :
    (" " : String) ≠ ""
    ∧ search_songs " " [] = .badRequest "Query parameter q is required"
    ∧ search_songs " " [] ≠ .ok " " 0 [] := by
  refine ⟨by decide, by decide, by decide⟩

/-- **C3, amended** — a query that is empty after lowercasing and
stripping (in particular the empty query) yields the 400 client error; for
any query whose stripped lowercased form `q'` is non-empty, the handler
returns a success whose results are exactly the sub-sequence of the
catalog hit by `q'` (substring of lowercased title or lowercased artist),
with the reported count equal to the number of results. -/
theorem search_contract_amended (q : String) (songs : List ApiSong) :
    (trimStr (lowerStr q) = "" →
      search_songs q songs = .badRequest "Query parameter q is required")
    ∧ (trimStr (lowerStr q) ≠ "" →
      ∃ results : List ApiSong,
        search_songs q songs = .ok (trimStr (lowerStr q)) results.length results
        ∧ List.Sublist results songs
        ∧ ∀ s : ApiSong, s ∈ results ↔ s ∈ songs ∧ searchHit (trimStr (lowerStr q)) s) := by
  constructor
  · intro h
    unfold search_songs
    rw [if_pos h]
  · intro h
    refine ⟨songs.filter (fun s =>
      strContains (lowerStr (s.title.getD "")) (trimStr (lowerStr q)) ||
      strContains (lowerStr (s.artist.getD "")) (trimStr (lowerStr q))), ?_, ?_, ?_⟩
    · unfold search_songs
      rw [if_neg h]
    · exact List.filter_sublist songs
    · intro s
      rw [List.mem_filter]
      unfold searchHit
      simp [Bool.or_eq_true]

/-- The artists accumulated by the statistics loop are the initial set
together with the kept artist values of the songs. -/
lemma statsFold_artists (songs : List ApiSong) (acc : StatsAcc) :
    (songs.foldl statsStep acc).artists
      = acc.artists ∪ ((songs.map artistOf).filter statsArtistKept).toFinset := by
  induction songs generalizing acc with
  | nil => simp
  | cons s ss ih =>
    rw [List.foldl_cons, ih, List.map_cons, List.filter_cons]
    have hart : (statsStep acc s).artists
        = if statsArtistKept (artistOf s) then insert (artistOf s) acc.artists
          else acc.artists := rfl
    by_cases h : statsArtistKept (artistOf s)
    · rw [hart, if_pos h, if_pos h, List.toFinset_cons, Finset.insert_union,
        Finset.union_insert]
    · rw [hart, if_neg h, if_neg h]

/-- **C5, counterexample** — a one-record catalog whose record has no
artist field: the default is the sentinel `Unknown`, which the claim says
is excluded from the distinct-artist count, yet `get_stats` counts it
(the code only excludes the empty string and `Unknown Artist`). -/
theorem stats_artists_counterexample :
    s0.artist = none
    ∧ (get_stats [s0] []).total_artists = 1
    ∧ claimTotalArtists [s0] = 0 :=
  ⟨rfl, by decide, by decide⟩

/-- **C5, amended** — `total_artists` is the number of distinct artist
values over all records (a record with no artist field defaulting to
`Unknown`), excluding the empty string and the value `Unknown Artist`;
the `Unknown` default itself is counted. -/
theorem stats_artists_amended (songs : List ApiSong) (favorites : List String) :
    (get_stats songs favorites).total_artists = amendedTotalArtists songs := by
  unfold get_stats amendedTotalArtists
  dsimp only
  rw [statsFold_artists, Finset.empty_union]

/-- The amended-spec character keep step agrees with the code's regex
character class. -/
lemma specKeep_eq_filter (l : List Char) : specKeep l = l.filter pyKeepChar := by
  induction l with
  | nil => rfl
  | cons c cs ih =>
    have hcond : (c.isAlphanum || c = '_' || c = '-' || c.isWhitespace)
        = pyKeepChar c := by
      unfold pyKeepChar
      ac_rfl
    rw [List.filter_cons]
    unfold specKeep
    rw [hcond, ih]

/-- The amended-spec space replacement agrees with the code's
`replace(' ', '_')`. -/
lemma specSpaces_eq_map (l : List Char) :
    specSpaces l = l.map (fun c => if c = ' ' then '_' else c) := by
  induction l with
  | nil => rfl
  | cons c cs ih =>
    unfold specSpaces
    rw [List.map_cons, ih]

/-- The amended-spec sanitizer coincides with the code's. -/
lemma specSanitize_eq_safeName (s : String) : specSanitize s = safeName s := by
  unfold specSanitize safeName
  rw [specKeep_eq_filter, specSpaces_eq_map]

/-- **C9, counterexample** — the claim derives the file name by stripping
non-alphanumeric characters and replacing whitespace runs with
underscores; the code keeps hyphens (and underscores) and replaces each
individual space: on title `a-b` the code produces `a-b.json` where the
claim's derivation gives `ab`, and on title `a  b` (two spaces) the code
produces `a__b` where the claim's derivation gives `a_b`. -/
theorem save_path_counterexample :
    save_path "Beethoven" "a-b" "id0" = ("sheets/Beethoven", "a-b.json")
    ∧ claimSanitize "a-b" = "ab"
    ∧ ("a-b" : String) ≠ "ab"
    ∧ safeName "a  b" = "a__b"
    ∧ claimSanitize "a  b" = "a_b"
    ∧ ("a__b" : String) ≠ "a_b" := by
  refine ⟨by decide, by decide, by decide, by decide, by decide, by decide⟩

/-- **C9, amended** — the per-song path is derived from the artist and
title by dropping every character that is not a word character (letter,
digit or underscore), whitespace, or a hyphen, trimming surrounding
whitespace, and replacing each space character with an underscore; when
the sanitized title is empty the file name falls back to the item id, and
an empty sanitized artist falls back to the `Unknown` directory. -/
theorem save_path_amended (artist title id : String) :
    save_path artist title id = specSavePath artist title id := by
  unfold save_path specSavePath
  rw [specSanitize_eq_safeName, specSanitize_eq_safeName]

/-- The element loop of `extract_notes` returns the cleaned text of the
first element accepted by the (raw then post-cleanup) plausibility check. -/
lemma extractFromTexts_eq (ts : List String) :
    extractFromTexts ts = (ts.find? specAccepts).bind clean_notes := by
  induction ts with
  | nil => rfl
  | cons t ts ih =>
    unfold extractFromTexts
    by_cases hp : plausibleRaw t
    · rw [if_pos hp]
      cases hc : clean_notes t with
      | some n =>
        have ha : specAccepts t = true := by
          unfold specAccepts
          rw [hp, hc]
          rfl
        rw [List.find?_cons_of_pos _ ha, Option.some_bind, hc]
      | none =>
        have ha : ¬ specAccepts t = true := by
          unfold specAccepts
          rw [hc]
          simp
        rw [List.find?_cons_of_neg _ ha]
        exact ih
    · rw [if_neg hp]
      have hp' : plausibleRaw t = false := by
        revert hp
        cases plausibleRaw t <;> simp
      have ha : ¬ specAccepts t = true := by
        unfold specAccepts
        rw [hp']
        simp
      rw [List.find?_cons_of_neg _ ha]
      exact ih

/-- The selector loop of `extract_notes` scans exactly the concatenation
of the per-selector element texts, in order. -/
lemma extractNotesAux_flatten (p : DetailPage) (sels : List String) :
    extractNotesAux p sels
      = (((sels.map (findElements p)).flatten.find? specAccepts).bind clean_notes) := by
  induction sels with
  | nil => rfl
  | cons sel rest ih =>
    unfold extractNotesAux
    rw [extractFromTexts_eq, List.map_cons, List.flatten_cons, List.find?_append]
    cases hf : (findElements p sel).find? specAccepts with
    | some t =>
      have haccept : specAccepts t = true := List.find?_some hf
      have hclean : ∃ n, clean_notes t = some n := by
        unfold specAccepts at haccept
        cases hcn : clean_notes t with
        | some n => exact ⟨n, rfl⟩
        | none =>
          rw [hcn] at haccept
          simp at haccept
      obtain ⟨n, hn⟩ := hclean
      rw [Option.some_bind, hn,
        show (some t).or ((rest.map (findElements p)).flatten.find? specAccepts)
          = some t from rfl,
        Option.some_bind, hn]
    | none =>
      rw [Option.none_bind, Option.none_or]
      exact ih

/-- A written record carries the candidate's URL. -/
lemma scrape_song_url {now : String} {c : Candidate} {page : Option DetailPage}
    {r : SongData} (h : scrape_song now c page = some r) : r.url = c.url := by
  unfold scrape_song at h
  cases page with
  | none => cases h
  | some p =>
    dsimp only at h
    cases hE : extract_notes p with
    | none =>
      rw [hE] at h
      cases h
    | some notes =>
      rw [hE] at h
      injection h with h'
      rw [← h']

/-- **C7** — Extraction acceptance and no-partial-write: `extract_notes`
returns the cleaned text of the first candidate block (in selector order,
then element order) that passes the plausibility heuristic — both bracket
delimiters present and length above the threshold — re-checked after
cleanup; and when extraction yields nothing, `scrape_song` fails for the
item and writes no record. -/
theorem extraction_first_accepted (p : DetailPage) (now : String) (c : Candidate) :
    extract_notes p = specExtract p
    ∧ (extract_notes p = none → scrape_song now c (some p) = none) := by
  constructor
  · unfold extract_notes specExtract orderedTexts
    exact extractNotesAux_flatten p SELECTORS
  · intro h
    unfold scrape_song
    dsimp only
    rw [h]

/-- Witness for C7 at a concrete page with no plausible block. -/
theorem extraction_first_accepted_witness :
    extract_notes emptyPage = specExtract emptyPage
    ∧ scrape_song "t" cand0 (some emptyPage) = none :=
  ⟨(extraction_first_accepted emptyPage "t" cand0).1,
   (extraction_first_accepted emptyPage "t" cand0).2 (by decide)⟩

/-- The records accumulated by the scraping loop: the initial records
followed by one record per successfully scraped candidate, in order. -/
lemma runScrapesAux_records (now : String) (detail : String → Option DetailPage)
    (cs : List Candidate) (acc : RunSummary) :
    (runScrapesAux now detail cs acc).records
      = acc.records ++ cs.filterMap (fun c => scrape_song now c (detail c.url)) := by
  induction cs generalizing acc with
  | nil => simp [runScrapesAux]
  | cons c cs ih =>
    unfold runScrapesAux
    rw [ih, List.filterMap_cons]
    unfold runStep
    cases h : scrape_song now c (detail c.url) with
    | some r => simp
    | none => simp

/-- The scraping loop accounts for every candidate: successes plus
failures grow by exactly the number of candidates. -/
lemma runScrapesAux_counts (now : String) (detail : String → Option DetailPage)
    (cs : List Candidate) (acc : RunSummary) :
    (runScrapesAux now detail cs acc).successful + (runScrapesAux now detail cs acc).failed
      = acc.successful + acc.failed + cs.length := by
  induction cs generalizing acc with
  | nil => simp [runScrapesAux]
  | cons c cs ih =>
    unfold runScrapesAux
    rw [ih]
    unfold runStep
    cases h : scrape_song now c (detail c.url) with
    | some r => simp; omega
    | none => simp; omega

/-- The success counter of the scraping loop equals the number of records
written. -/
lemma runScrapesAux_successful (now : String) (detail : String → Option DetailPage)
    (cs : List Candidate) (acc : RunSummary) :
    (runScrapesAux now detail cs acc).successful
      = acc.successful + (cs.filterMap (fun c => scrape_song now c (detail c.url))).length := by
  induction cs generalizing acc with
  | nil => simp [runScrapesAux]
  | cons c cs ih =>
    unfold runScrapesAux
    rw [ih, List.filterMap_cons]
    unfold runStep
    cases h : scrape_song now c (detail c.url) with
    | some r => simp; omega
    | none => simp

/-- **C6, counterexample** — a run whose very first listing-page fetch
raises: the exception is caught inside enumeration (scraper.py:123-125),
the candidate list comes back empty, and the run finishes normally with
the `.ok` summary — it does not abort (an abort would be the `.error`
channel of the model, reached only by an exception the body does not
catch). -/
theorem enumeration_failure_counterexample :
    run [] [none] noDetail "t" = .ok ⟨0, 0, []⟩ := rfl

/-- **C6, amended** — a failed fetch of the first listing page is caught
inside enumeration: the run does not abort but completes normally with an
empty summary; more generally no modelled run aborts, every candidate is
accounted as either successful or failed, and records are written only
for successes. -/
theorem enumeration_failure_amended (existing : List String)
    (rest pages : List (Option ListingPage))
    (detail : String → Option DetailPage) (now : String) :
    run existing (none :: rest) detail now = .ok ⟨0, 0, []⟩
    ∧ ∃ s : RunSummary, run existing pages detail now = .ok s
        ∧ s.successful + s.failed = (get_all_song_links existing pages).length
        ∧ s.records.length = s.successful := by
  refine ⟨rfl, ?_⟩
  unfold run
  dsimp only
  by_cases h : (get_all_song_links existing pages).isEmpty
  · rw [if_pos h]
    refine ⟨⟨0, 0, []⟩, rfl, ?_, rfl⟩
    rw [List.isEmpty_iff.mp h]
    rfl
  · rw [if_neg h]
    refine ⟨_, rfl, ?_, ?_⟩
    · rw [runScrapesAux_counts]
      simp
    · rw [runScrapesAux_records, runScrapesAux_successful]
      simp

/-- Processing one link never produces a candidate whose derived id is in
the existing-catalog set. -/
lemma addLink_not_existing (existing : List String) (acc : List Candidate)
    (link : Link) (hacc : ∀ c ∈ acc, lastSegment c.url ∉ existing) :
    ∀ c ∈ addLink existing acc link, lastSegment c.url ∉ existing := by
  intro c hc
  unfold addLink at hc
  dsimp only at hc
  split at hc
  · exact hacc c hc
  · split at hc
    · exact hacc c hc
    · split at hc
      · exact hacc c hc
      · rename_i hskip hnotex hdup
        rcases List.mem_append.mp hc with hmem | hmem
        · exact hacc c hmem
        · rw [List.mem_singleton] at hmem
          subst hmem
          exact hnotex

/-- The link fold of one listing page preserves the invariant. -/
lemma foldl_addLink_not_existing (existing : List String) (links : List Link)
    (acc : List Candidate) (hacc : ∀ c ∈ acc, lastSegment c.url ∉ existing) :
    ∀ c ∈ links.foldl (addLink existing) acc, lastSegment c.url ∉ existing := by
  induction links generalizing acc with
  | nil => exact hacc
  | cons l ls ih =>
    rw [List.foldl_cons]
    exact ih (addLink existing acc l) (addLink_not_existing existing acc l hacc)

/-- The pagination loop preserves the invariant. -/
lemma getAllSongLinksAux_not_existing (existing : List String)
    (pages : List (Option ListingPage)) (acc : List Candidate)
    (hacc : ∀ c ∈ acc, lastSegment c.url ∉ existing) :
    ∀ c ∈ getAllSongLinksAux existing pages acc, lastSegment c.url ∉ existing := by
  induction pages generalizing acc with
  | nil => exact hacc
  | cons op rest ih =>
    cases op with
    | none => exact hacc
    | some pg =>
      unfold getAllSongLinksAux
      by_cases he : pg.links.isEmpty
      · rw [if_pos he]
        exact hacc
      · rw [if_neg he]
        dsimp only
        by_cases hn : pg.hasNext
        · rw [if_pos hn]
          exact ih _ (foldl_addLink_not_existing existing pg.links acc hacc)
        · rw [if_neg hn]
          exact foldl_addLink_not_existing existing pg.links acc hacc

/-- **C1** — Collector dedup: when the derived id (final path segment) of
a URL `u` is in the existing-catalog set, the enumeration step drops every
link for `u` before any detail-page visit, so the run makes no
detail-page visit to `u` and writes no record for `u`. -/
theorem collector_dedup (existing : List String)
    (pages : List (Option ListingPage)) (detail : String → Option DetailPage)
    (now : String) (u : String) (h : lastSegment u ∈ existing) :
    u ∉ detail_visits existing pages
    ∧ ∀ r ∈ run_records existing pages detail now, r.url ≠ u := by
  have hcand : ∀ c ∈ get_all_song_links existing pages, lastSegment c.url ∉ existing :=
    getAllSongLinksAux_not_existing existing pages [] (by simp)
  constructor
  · intro hmem
    unfold detail_visits at hmem
    obtain ⟨c, hc, hcu⟩ := List.mem_map.mp hmem
    exact hcand c hc (hcu ▸ h)
  · intro r hr hru
    unfold run_records run at hr
    by_cases he : (get_all_song_links existing pages).isEmpty
    · rw [if_pos he] at hr
      exact absurd hr (List.not_mem_nil r)
    · rw [if_neg he] at hr
      dsimp only at hr
      rw [runScrapesAux_records, List.nil_append] at hr
      obtain ⟨c, hc, hs⟩ := List.mem_filterMap.mp hr
      exact hcand c hc (by rw [← scrape_song_url hs, hru]; exact h)

/-- Witness for C1: a catalogued id rediscovered on a listing page is
dropped, not visited, and yields no record. -/
theorem collector_dedup_witness :
    lastSegment "https://x/sheets/fur-elise" ∈ ["fur-elise"]
    ∧ "https://x/sheets/fur-elise" ∉ detail_visits ["fur-elise"] pages0
    ∧ ∀ r ∈ run_records ["fur-elise"] pages0 noDetail "t",
        r.url ≠ "https://x/sheets/fur-elise" :=
  ⟨by decide,
   (collector_dedup ["fur-elise"] pages0 noDetail "t"
      "https://x/sheets/fur-elise" (by decide)).1,
   (collector_dedup ["fur-elise"] pages0 noDetail "t"
      "https://x/sheets/fur-elise" (by decide)).2⟩

/-- Witness for the amended C3: one query that is empty once stripped, one
that is not. -/
theorem search_contract_amended_witness :
    search_songs "  " [s0] = .badRequest "Query parameter q is required"
    ∧ ∃ results : List ApiSong,
        search_songs "ELISE " [s0] = .ok (trimStr (lowerStr "ELISE ")) results.length results
        ∧ List.Sublist results [s0]
        ∧ ∀ s : ApiSong, s ∈ results ↔ s ∈ [s0] ∧ searchHit (trimStr (lowerStr "ELISE ")) s :=
  ⟨(search_contract_amended "  " [s0]).1 (by decide),
   (search_contract_amended "ELISE " [s0]).2 (by decide)⟩
